import Mathlib

/-!
Verification development for the yabaictl workspace topology manager.

The Rust sources (src/main.rs, src/states.rs, src/yabai.rs) are shallowly
embedded below.  Machine integers (`u32`) are modelled as `Nat`; the two
places where the source performs a subtraction that can underflow are
modelled both with explicit wrap-around (`% 2^32`, the release-build
semantics) and as a checked operation whose failure stands for the
debug-build panic.  Functions whose only effect is to send messages to the
window-manager daemon are embedded as functions returning the list of
messages sent; the daemon's reaction to a space-focus command is modelled
by `refocusLabel`.  Fallible paths return `Except Err`.
-/

deriving instance DecidableEq for Except

namespace Yabaictl

/-- `NUM_SPACES` from yabai.rs:14. -/
def NUM_SPACES : Nat := 10

/-- The modulus of the Rust `u32` type. -/
def U32_MOD : Nat := 2 ^ 32

/-- Errors of the embedded operations.  `underflow` stands for the panic of a
debug-build `u32` subtraction; `noFocusedSpace` and `invalidLabel` stand for
the `.expect(...)` panics in yabai.rs; `daemon` is a surfaced daemon error;
`unmodeledRestore` marks the `restore_if_necessary` branch of the navigator,
which re-runs the whole planner against the live daemon and is therefore
kept outside this pure transition model (every theorem below hypothesises a
snapshot without an unlabeled native-fullscreen space, on which the branch
is not taken). -/
inductive Err where
  | underflow
  | noFocusedSpace
  | invalidLabel
  | recentOutOfRange (recent count : Nat)
  | unsupportedDisplays (d : Nat)
  | daemon (msg : String)
  | unmodeledRestore
deriving Repr, DecidableEq

/-- Wrapping `u32` subtraction (release-build semantics); both arguments are
assumed `< 2^32`, as they are lengths or small counters in the source. -/
def u32wrapSub (a b : Nat) : Nat := (a + U32_MOD - b % U32_MOD) % U32_MOD

/-- Checked `u32` subtraction: the error stands for the debug-build panic on
underflow. -/
def checkedSub (a b : Nat) : Except Err Nat :=
  if b ≤ a then .ok (a - b) else .error .underflow

/-- Value of a decimal digit character. -/
def digitVal (c : Char) : Option Nat :=
  if '0' ≤ c ∧ c ≤ '9' then some (c.toNat - '0'.toNat) else none

/-- Accumulating decimal parse over a character list. -/
def parseDigitsAux : List Char → Nat → Option Nat
  | [], acc => some acc
  | c :: cs, acc =>
    match digitVal c with
    | some d => parseDigitsAux cs (acc * 10 + d)
    | none => none

/-- Model of Rust's `u32::from_str_radix(s, 10)` (states.rs:92) and of the
`u32` value parser that structopt derives for main.rs's `FocusSpace` field:
an optional leading '+', then a nonempty digit string, with values outside
the `u32` range rejected. -/
def parseU32 (cs : List Char) : Option Nat :=
  let cs2 := match cs with
    | '+' :: rest => rest
    | _ => cs
  match cs2 with
  | [] => none
  | _ =>
    match parseDigitsAux cs2 0 with
    | some n => if n < U32_MOD then some n else none
    | none => none

/-- `Space` from states.rs:62-81.  The `id`, `uuid` and `type` fields are
never consulted by the embedded operations and are omitted; `frame` floats
do not occur on spaces. -/
structure Space where
  index : Nat
  label : String
  display : Nat
  windows : List Nat
  first_window : Nat
  last_window : Nat
  has_focus : Bool
  is_visible : Bool
  is_native_fullscreen : Bool
deriving Repr, DecidableEq

/-- `Display` from states.rs:100-107 (`id`, `uuid` and the float `frame` are
not consulted by any embedded operation). -/
structure Display where
  index : Nat
  spaces : List Nat
deriving Repr, DecidableEq

/-- `Window` from states.rs:117-165; only the fields consulted by the
embedded operations are kept. -/
structure Window where
  id : Nat
  space : Nat
deriving Repr, DecidableEq

/-- `YabaiStates` from states.rs:17-22. -/
structure YabaiStates where
  spaces : List Space
  displays : List Display
  windows : List Window
deriving Repr, DecidableEq

/-- states.rs:25-27. -/
def YabaiStates.num_spaces (st : YabaiStates) : Nat := st.spaces.length

/-- states.rs:29-31. -/
def YabaiStates.num_displays (st : YabaiStates) : Nat := st.displays.length

/-- states.rs:33-35. -/
def YabaiStates.focused_space (st : YabaiStates) : Option Space :=
  st.spaces.find? (fun space => space.has_focus)

/-- states.rs:37-39. -/
def YabaiStates.find_space_by_label (st : YabaiStates) (label : String) : Option Space :=
  st.spaces.find? (fun space => space.label == label)

/-- states.rs:41-46. -/
def YabaiStates.find_unlabeled_space (st : YabaiStates) : Option Space :=
  st.spaces.find? (fun space => space.label == "" && space.is_native_fullscreen)

/-- states.rs:48-51. -/
def YabaiStates.find_space_by_label_index (st : YabaiStates) (label_index : Nat) : Option Space :=
  st.find_space_by_label ("s" ++ Nat.repr label_index)

/-- states.rs:84-86. -/
def Space.find_window_id (s : Space) (window_id : Nat) : Option Nat :=
  s.windows.find? (fun id => id == window_id)

/-- states.rs:88-97: parse the integer suffix of a label beginning with "s". -/
def Space.label_index (s : Space) : Option Nat :=
  match s.label.toList with
  | 's' :: rest => parseU32 rest
  | _ => none

/-- states.rs:53-59. -/
def YabaiStates.find_window_id_in_space (st : YabaiStates) (space_label : String)
    (window_id : Nat) : Option Nat :=
  match st.find_space_by_label space_label with
  | none => none
  | some space => space.find_window_id window_id

/-- `WindowArg` from yabai.rs:17-25. -/
inductive WindowArg where
  | North
  | East
  | South
  | West
deriving Repr, DecidableEq

/-- yabai.rs:27-36. -/
def WindowArg.as_str : WindowArg → String
  | .North => "north"
  | .East => "east"
  | .South => "south"
  | .West => "west"

/-- `WindowOp` from yabai.rs:38-43. -/
inductive WindowOp where
  | Focus
  | Swap
  | Warp
deriving Repr, DecidableEq

/-- yabai.rs:45-53. -/
def WindowOp.as_str : WindowOp → String
  | .Focus => "--focus"
  | .Swap => "--swap"
  | .Warp => "--warp"

/-- `SpaceArg` from yabai.rs:55-62. -/
inductive SpaceArg where
  | Next
  | Prev
  | Recent
  | Extra
  | Space (n : Nat)
deriving Repr, DecidableEq

/-- Does `needle` occur at the head of `hay`? -/
def charsHavePrefix : List Char → List Char → Bool
  | [], _ => true
  | _ :: _, [] => false
  | a :: as_, b :: bs => a == b && charsHavePrefix as_ bs

/-- Does `needle` occur anywhere in `hay`? -/
def charsContain (needle : List Char) : List Char → Bool
  | [] => needle.isEmpty
  | h :: tl => charsHavePrefix needle (h :: tl) || charsContain needle tl

/-- Model of Rust's `str::contains`, used for the daemon error-text matching. -/
def strContains (hay needle : String) : Bool := charsContain needle.toList hay.toList

/-! ## Topology planner (yabai.rs: even_spaces, ensure_spaces, ensure_labels) -/

/-- The spec's target-count formula `T = N + 1 + max(0, D − 2)` (spec §3 and
§4.D phase 1 step 3), for the refinement comparison against the source. -/
def spec_target (d : Nat) : Nat := NUM_SPACES + 1 + (max 0 ((d : Int) - 2)).toNat

/-- The target space count computed at yabai.rs:331,
`NUM_SPACES + 1 + (states.num_displays() - 2)`, under wrapping (release
build) `u32` semantics: the subtraction is unguarded and underflows when
fewer than two displays are present. -/
def ensure_spaces_target (num_displays : Nat) : Nat :=
  (NUM_SPACES + 1 + u32wrapSub num_displays 2) % U32_MOD

/-- The same computation under checked (debug build) semantics: the `u32`
subtraction `num_displays - 2` panics when `num_displays < 2`. -/
def ensure_spaces_target_checked (num_displays : Nat) : Except Err Nat :=
  match checkedSub num_displays 2 with
  | .error err => .error err
  | .ok extras => .ok (NUM_SPACES + 1 + extras)

/-- A create or destroy request sent during the count-convergence step of
`ensure_spaces`; `destroy i` addresses the space at OS index `i`. -/
inductive SpaceReq where
  | create
  | destroy (os_index : Nat)
deriving Repr, DecidableEq

/-- The create/destroy requests issued by the count-convergence step of
`ensure_spaces` (yabai.rs:336-344): when `num_spaces < target` the loop
`for _i in states.num_spaces()..NUM_SPACES + 1` sends one `space --create`
per iteration; when `num_spaces > target` the loop
`for _i in target + 1..=states.num_spaces()` destroys the space at OS index
`target + 1` once per iteration. -/
def ensure_spaces_converge (num_spaces target : Nat) : List SpaceReq :=
  if num_spaces < target then
    List.replicate (NUM_SPACES + 1 - num_spaces) SpaceReq.create
  else if target < num_spaces then
    List.replicate (num_spaces - target) (SpaceReq.destroy (target + 1))
  else []

/-- The `(space OS index, display index)` move requests issued by
`even_spaces` (yabai.rs:279-303), in order.  `move_space_to_display`
swallows the already-on-the-given-display daemon error, so every request is
recorded unconditionally. -/
def even_spaces (num_displays : Nat) : Except Err (List (Nat × Nat)) :=
  match num_displays with
  | 1 => .ok []
  | 2 | 3 =>
    let moves := (List.range NUM_SPACES).map (fun j =>
      let i := j + 1
      if i ≤ NUM_SPACES / 2 then (i + 1, 1) else (i + 1, 2))
    .ok (if num_displays > 2 then moves ++ [(NUM_SPACES + 2, 3)] else moves)
  | d => .error (.unsupportedDisplays d)

/-- The `(space OS index, label)` requests issued by `ensure_labels`
(yabai.rs:351-407), in order: OS index 1 is labelled "reserved", then for
`i` in `1..num_spaces` the space at OS index `i + 1` is labelled `s<i>`
(one display) or, for two or three displays, `s<2i>` if `i ≤ NUM_SPACES/2`,
`s<(i - NUM_SPACES/2)*2 - 1>` if `i ≤ NUM_SPACES`, and `s<NUM_SPACES+1>`
otherwise. -/
def ensure_labels (num_displays num_spaces : Nat) : Except Err (List (Nat × String)) :=
  let tail_indices := (List.range (num_spaces - 1)).map (fun j => j + 1)
  match num_displays with
  | 1 =>
    .ok ((1, "reserved") :: tail_indices.map (fun i => (i + 1, "s" ++ Nat.repr i)))
  | 2 | 3 =>
    .ok ((1, "reserved") :: tail_indices.map (fun i =>
      if i ≤ NUM_SPACES / 2 then (i + 1, "s" ++ Nat.repr (i * 2))
      else if i ≤ NUM_SPACES then (i + 1, "s" ++ Nat.repr ((i - NUM_SPACES / 2) * 2 - 1))
      else (i + 1, "s" ++ Nat.repr (NUM_SPACES + 1))))
  | d => .error (.unsupportedDisplays d)

/-! ## Navigator (yabai.rs: neighbor_space, focus_space, operate_window) -/

/-- Model of the daemon's reaction to `["space", "--focus", label]` when a
space with that label exists: exactly the spaces carrying the label become
focused.  Only the `has_focus` flag is tracked; visibility flags are left
unchanged (they gate only whether a redundant extra focus message is sent,
never the resulting focus). -/
def refocusLabel (st : YabaiStates) (label : String) : YabaiStates :=
  { st with spaces := st.spaces.map (fun sp => { sp with has_focus := sp.label == label }) }

/-- `focus_space_by_label` (yabai.rs:208-211) together with the daemon model:
focusing an existing label succeeds (the "cannot focus an already focused
space." error is swallowed at yabai.rs:213-227, and an already-focused space
is a fixed point of `refocusLabel`); focusing a missing label fails with a
daemon error that `focus_space_arg` does not swallow. -/
def focus_space_by_label (st : YabaiStates) (label_index : Nat) : Except Err YabaiStates :=
  match st.find_space_by_label_index label_index with
  | some _ => .ok (refocusLabel st ("s" ++ Nat.repr label_index))
  | none => .error (.daemon "could not resolve the given space selector")

/-- The selector-to-label-index computation of `focus_space`
(yabai.rs:463-498).  `recent` is the sidecar cursor, `focused_label_index`
the label index of the currently focused space; `display_count` is
recomputed exactly as at yabai.rs:463.  The `u32` subtractions of the `Prev`
wrap branch are checked. -/
def select_label_index (states : YabaiStates) (recent focused_label_index : Nat)
    (space : SpaceArg) : Except Err Nat :=
  let display_count := if states.num_displays ≥ 2 then 2 else 1
  match space with
  | .Recent =>
    if recent > states.num_spaces then
      .error (.recentOutOfRange recent states.num_spaces)
    else .ok recent
  | .Next =>
    let index := focused_label_index + display_count
    .ok (if index > NUM_SPACES then index % NUM_SPACES else index)
  | .Prev =>
    if focused_label_index ≤ display_count then
      let extra_monitors := if states.num_displays > 2 then states.num_displays - 2 else 0
      match checkedSub states.num_spaces 1 with
      | .error err => .error err
      | .ok a =>
        match checkedSub a extra_monitors with
        | .error err => .error err
        | .ok b => checkedSub b (display_count - focused_label_index)
    else .ok (focused_label_index - display_count)
  | .Extra => .ok 11
  | .Space n => .ok n

/-- The focus-execution step of `focus_space` (yabai.rs:500-528): one
display focuses the target label directly; two or three displays first
compute the pair partner (`label_index - 1` when even — an unguarded `u32`
subtraction — else `label_index + 1`), focus it when it exists, is not the
focused label and is not visible, then focus the target; any other display
count is rejected. -/
def do_focus (states : YabaiStates) (focused_label_index label_index : Nat) :
    Except Err YabaiStates :=
  if states.num_displays = 1 then focus_space_by_label states label_index
  else if states.num_displays = 2 ∨ states.num_displays = 3 then
    match (if label_index % 2 = 0 then checkedSub label_index 1
           else .ok (label_index + 1)) with
    | .error err => .error err
    | .ok neighbor_label_index =>
      let step1 : Except Err YabaiStates :=
        match states.find_space_by_label_index neighbor_label_index with
        | none => .ok states
        | some nsp =>
          if focused_label_index ≠ neighbor_label_index ∧ nsp.is_visible = false then
            focus_space_by_label states neighbor_label_index
          else .ok states
      match step1 with
      | .error err => .error err
      | .ok st1 => focus_space_by_label st1 label_index
  else .error (.unsupportedDisplays states.num_displays)

/-- The state a `focus_space` invocation works on: the live daemon snapshot
(returned by `query()`) and the sidecar cursor (`cursor.json`'s `recent`). -/
structure ModelEnv where
  daemon : YabaiStates
  ctl : Nat
deriving Repr, DecidableEq

/-- `focus_space` (yabai.rs:457-537): query, restore-if-necessary (excluded
by hypothesis in every theorem below and mapped to `unmodeledRestore`),
compute the focused label index, resolve the selector, focus, then persist
the previously focused label index as the new cursor and the re-queried
snapshot.  Returns the new daemon snapshot and cursor. -/
def focus_space (env : ModelEnv) (space : SpaceArg) : Except Err ModelEnv :=
  let states := env.daemon
  if (states.find_unlabeled_space).isSome then .error .unmodeledRestore
  else
    match states.focused_space with
    | none => .error .noFocusedSpace
    | some focused_space =>
      match focused_space.label_index with
      | none => .error .invalidLabel
      | some focused_label_index =>
        match select_label_index states env.ctl focused_label_index space with
        | .error err => .error err
        | .ok label_index =>
          match do_focus states focused_label_index label_index with
          | .error err => .error err
          | .ok daemon2 => .ok { daemon := daemon2, ctl := focused_label_index }

/-- `neighbor_space` (yabai.rs:251-277): the `.expect(...)` panics on a
missing focused space or an unparsable label are modelled as errors, and the
`u32` subtraction `label_index - 1` is checked; `East` and `West` both look
up the pair partner (`label_index - 1` when even, `label_index + 1` when
odd) and the other directions yield `none`. -/
def neighbor_space (states : YabaiStates) (direction : WindowArg) :
    Except Err (Option Space) :=
  match states.focused_space with
  | none => .error .noFocusedSpace
  | some focused_space =>
    match focused_space.label_index with
    | none => .error .invalidLabel
    | some label_index =>
      match direction with
      | .East =>
        match (if label_index % 2 = 0 then checkedSub label_index 1
               else .ok (label_index + 1)) with
        | .error err => .error err
        | .ok nli => .ok (states.find_space_by_label_index nli)
      | .West =>
        match (if label_index % 2 = 0 then checkedSub label_index 1
               else .ok (label_index + 1)) with
        | .error err => .error err
        | .ok nli => .ok (states.find_space_by_label_index nli)
      | _ => .ok none

/-- The error-recovery arm of `operate_window` (yabai.rs:545-643), entered
after the native directional command failed with daemon error text `e`:
vertical directions re-raise, unexpected error texts re-raise, and otherwise
the fallback issues the listed daemon messages (returned in order) or
re-raises `e`. -/
def operate_window_on_error (states : YabaiStates) (op : WindowOp)
    (direction : WindowArg) (e : String) : Except Err (List (List String)) :=
  match direction with
  | .North | .South => .error (.daemon e)
  | _ =>
    let expected1 := "could not locate a " ++ direction.as_str ++ "ward managed window."
    let expected2 := "could not locate the selected window."
    if strContains e expected1 = false ∧ strContains e expected2 = false then
      .error (.daemon e)
    else
      if states.num_displays = 1 then
        match states.focused_space with
        | none => .error .noFocusedSpace
        | some space =>
          match direction with
          | .East => .ok [["window", op.as_str, Nat.repr space.first_window]]
          | .West => .ok [["window", op.as_str, Nat.repr space.last_window]]
          | _ => .error (.daemon e)
      else if states.num_displays = 2 ∨ states.num_displays = 3 then
        match neighbor_space states direction with
        | .error err => .error err
        | .ok none => .error (.daemon e)
        | .ok (some ns) =>
          match op with
          | .Focus =>
            match (match direction with
                   | .East => Except.ok ns.first_window
                   | .West => Except.ok ns.last_window
                   | _ => Except.error (Err.daemon e)) with
            | .error err => .error err
            | .ok nw0 =>
              match (if nw0 = 0 ∨ (ns.find_window_id nw0).isNone then
                       match states.focused_space with
                       | none => Except.error Err.noFocusedSpace
                       | some space =>
                         match direction with
                         | .East => Except.ok space.first_window
                         | .West => Except.ok space.last_window
                         | _ => Except.error (Err.daemon e)
                     else Except.ok nw0) with
              | .error err => .error err
              | .ok next_window =>
                .ok [["window", op.as_str, Nat.repr next_window]]
          | _ =>
            match (if ns.windows.length = 0 then
                     Except.ok ["window", "--space", ns.label]
                   else
                     match direction with
                     | .East => Except.ok ["window", op.as_str, Nat.repr ns.first_window]
                     | .West => Except.ok ["window", op.as_str, Nat.repr ns.last_window]
                     | _ => Except.error (Err.daemon e)) with
            | .error err => .error err
            | .ok msg1 => .ok [msg1, ["space", "--focus", ns.label]]
      else .error (.unsupportedDisplays states.num_displays)

/-! ## CLI (main.rs) -/

/-- `Cli` from main.rs:103-125; the `Direction` enum of main.rs:93-101 is
the same four-variant enum as `WindowArg`. -/
inductive Cli where
  | UpdateSpaces
  | FocusSpace (space : Nat)
  | FocusWindow (direction : WindowArg)
  | SwapWindow (direction : WindowArg)
  | WarpWindow (direction : WindowArg)
deriving Repr, DecidableEq

/-- The case-insensitive direction value parser structopt derives for the
`possible_values = Direction::variants()` fields of main.rs:113-124. -/
def parse_direction (s : String) : Option WindowArg :=
  match s.toLower with
  | "north" => some WindowArg.North
  | "east" => some WindowArg.East
  | "south" => some WindowArg.South
  | "west" => some WindowArg.West
  | _ => none

/-- The argument parser structopt derives for `Cli` (main.rs:103-125): each
variant becomes a kebab-case subcommand; `focus-space` takes one bare `u32`
value with no range restriction. -/
def parse_cli (args : List String) : Except String Cli :=
  match args with
  | ["update-spaces"] => .ok Cli.UpdateSpaces
  | ["focus-space", sArg] =>
    match parseU32 sArg.toList with
    | some n => .ok (Cli.FocusSpace n)
    | none => .error ("Invalid value for space: " ++ sArg)
  | ["focus-window", dArg] =>
    match parse_direction dArg with
    | some d => .ok (Cli.FocusWindow d)
    | none => .error ("Invalid value for direction: " ++ dArg)
  | ["swap-window", dArg] =>
    match parse_direction dArg with
    | some d => .ok (Cli.SwapWindow d)
    | none => .error ("Invalid value for direction: " ++ dArg)
  | ["warp-window", dArg] =>
    match parse_direction dArg with
    | some d => .ok (Cli.WarpWindow d)
    | none => .error ("Invalid value for direction: " ++ dArg)
  | _ => .error "Invalid usage"

/-! ## Concrete snapshots used as witnesses and counterexamples -/

/-- A space with only the fields relevant to focus bookkeeping populated. -/
def sampleSpace (idx : Nat) (label : String) (foc : Bool) : Space :=
  { index := idx, label := label, display := 1, windows := [], first_window := 0,
    last_window := 0, has_focus := foc, is_visible := foc, is_native_fullscreen := false }

/-- A display stub. -/
def sampleDisplay (idx : Nat) : Display := { index := idx, spaces := [] }

/-- The canonical two-display snapshot after restore (11 spaces, labels
`reserved, s2, s4, s6, s8, s10, s1, s3, s5, s7, s9` on OS indices 1..11),
focused on `s2`. -/
def canonicalD2 : YabaiStates :=
  { spaces := [sampleSpace 1 "reserved" false, sampleSpace 2 "s2" true,
               sampleSpace 3 "s4" false, sampleSpace 4 "s6" false,
               sampleSpace 5 "s8" false, sampleSpace 6 "s10" false,
               sampleSpace 7 "s1" false, sampleSpace 8 "s3" false,
               sampleSpace 9 "s5" false, sampleSpace 10 "s7" false,
               sampleSpace 11 "s9" false],
    displays := [sampleDisplay 1, sampleDisplay 2], windows := [] }

/-- A two-display snapshot whose focused space is labelled `s1` and where no
space labelled `s2` exists (no pair partner). -/
def twoDisplayNoPartner : YabaiStates :=
  { spaces := [sampleSpace 1 "s1" true],
    displays := [sampleDisplay 1, sampleDisplay 2], windows := [] }

/-- A one-display snapshot whose focused space holds windows 7 and 9. -/
def oneDisplayTwoWindows : YabaiStates :=
  { spaces := [{ index := 1, label := "s1", display := 1, windows := [7, 9],
                 first_window := 7, last_window := 9, has_focus := true,
                 is_visible := true, is_native_fullscreen := false }],
    displays := [sampleDisplay 1], windows := [] }

/-- A four-display snapshot with a focused, validly labelled space. -/
def fourDisplayStates : YabaiStates :=
  { spaces := [sampleSpace 1 "s1" true],
    displays := [sampleDisplay 1, sampleDisplay 2, sampleDisplay 3, sampleDisplay 4],
    windows := [] }

/-- A two-display snapshot with spaces `s1` (focused) and `s2`. -/
def twoDisplayPair : YabaiStates :=
  { spaces := [sampleSpace 1 "s1" true, sampleSpace 2 "s2" false],
    displays := [sampleDisplay 1, sampleDisplay 2], windows := [] }

/-- A one-display snapshot with spaces `s1` (focused) and `s2`. -/
def oneDisplayPair : YabaiStates :=
  { spaces := [sampleSpace 1 "s1" true, sampleSpace 2 "s2" false],
    displays := [sampleDisplay 1], windows := [] }

/-! ## Helper lemmas about the daemon focus model -/

theorem refocus_displays (st : YabaiStates) (l : String) :
    (refocusLabel st l).displays = st.displays := rfl

theorem refocus_num_spaces (st : YabaiStates) (l : String) :
    (refocusLabel st l).num_spaces = st.num_spaces := by
  simp [refocusLabel, YabaiStates.num_spaces]

theorem refocus_find_label (st : YabaiStates) (l m : String) :
    (refocusLabel st l).find_space_by_label m =
      (st.find_space_by_label m).map
        (fun sp => { sp with has_focus := sp.label == l }) := by
  unfold refocusLabel YabaiStates.find_space_by_label
  rw [List.find?_map]
  rfl

theorem refocus_find_label_index (st : YabaiStates) (l : String) (i : Nat) :
    (refocusLabel st l).find_space_by_label_index i =
      (st.find_space_by_label_index i).map
        (fun sp => { sp with has_focus := sp.label == l }) := by
  unfold YabaiStates.find_space_by_label_index
  exact refocus_find_label st l _

theorem refocus_find_label_index_isSome (st : YabaiStates) (l : String) (i : Nat) :
    ((refocusLabel st l).find_space_by_label_index i).isSome =
      (st.find_space_by_label_index i).isSome := by
  rw [refocus_find_label_index]
  cases st.find_space_by_label_index i <;> rfl

theorem refocus_find_unlabeled (st : YabaiStates) (l : String) :
    (refocusLabel st l).find_unlabeled_space =
      (st.find_unlabeled_space).map
        (fun sp => { sp with has_focus := sp.label == l }) := by
  unfold refocusLabel YabaiStates.find_unlabeled_space
  rw [List.find?_map]
  rfl

theorem refocus_focused (st : YabaiStates) (l : String) :
    (refocusLabel st l).focused_space =
      (st.find_space_by_label l).map
        (fun sp => { sp with has_focus := sp.label == l }) := by
  unfold refocusLabel YabaiStates.focused_space YabaiStates.find_space_by_label
  rw [List.find?_map]
  rfl

theorem find_space_by_label_label {st : YabaiStates} {l : String} {sp : Space}
    (h : st.find_space_by_label l = some sp) : sp.label = l := by
  have h2 := List.find?_some h
  simpa using h2

theorem find_space_by_label_index_label {st : YabaiStates} {i : Nat} {sp : Space}
    (h : st.find_space_by_label_index i = some sp) : sp.label = "s" ++ Nat.repr i :=
  find_space_by_label_label h

theorem label_index_congr {s t : Space} (h : s.label = t.label) :
    s.label_index = t.label_index := by
  unfold Space.label_index
  rw [h]

theorem find_label_isSome_of_mem {st : YabaiStates} {sp : Space} {l : String}
    (hm : sp ∈ st.spaces) (hl : sp.label = l) :
    (st.find_space_by_label l).isSome = true := by
  unfold YabaiStates.find_space_by_label
  rw [List.find?_isSome]
  exact ⟨sp, hm, by simp [hl]⟩

theorem focus_space_by_label_ok {st : YabaiStates} {i : Nat}
    (h : (st.find_space_by_label_index i).isSome = true) :
    focus_space_by_label st i = .ok (refocusLabel st ("s" ++ Nat.repr i)) := by
  unfold focus_space_by_label
  cases hfind : st.find_space_by_label_index i with
  | none => rw [hfind] at h; simp at h
  | some sp => simp

/-! ## Claim theorems -/

/-- C1: the spec's target count `T = N + 1 + max(0, D − 2)` matches the code
for D ∈ {2, 3}, but for D = 1 the source computes
`NUM_SPACES + 1 + (num_displays - 2)` with an unguarded `u32` subtraction:
it panics in a debug build and wraps to `T = 10` (not the specified 11) in a
release build, so the claimed equality fails on the single-display case. -/
theorem C1_target_count_bug :
    ensure_spaces_target 2 = spec_target 2 ∧
    ensure_spaces_target 3 = spec_target 3 ∧
    spec_target 1 = NUM_SPACES + 1 ∧
    ensure_spaces_target_checked 1 = .error .underflow ∧
    ensure_spaces_target 1 = 10 ∧
    ensure_spaces_target 1 ≠ spec_target 1 := by decide

/-- C2: for two displays and an 11-space snapshot, `ensure_labels` issues
exactly the labelling requests `reserved, s2, s4, s6, s8, s10, s1, s3, s5,
s7, s9` for OS indices 1..11, in that order. -/
theorem C2_labels_interleaved_d2 :
    ensure_labels 2 11 = .ok [(1, "reserved"), (2, "s2"), (3, "s4"), (4, "s6"),
      (5, "s8"), (6, "s10"), (7, "s1"), (8, "s3"), (9, "s5"), (10, "s7"),
      (11, "s9")] := by decide

/-- C3: the destroy half of count convergence behaves as claimed
(count − T destroys, each addressed to OS index T + 1), and for D = 2 the
create half issues T − count creates; but the create loop iterates
`num_spaces..NUM_SPACES+1` rather than `num_spaces..target`, so at the
failing input D = 3 (target 12) with an 11-space snapshot it issues 0 create
requests where the claim requires T − count = 1. -/
theorem C3_converge_requests_bug :
    ensure_spaces_converge 9 (ensure_spaces_target 2) =
      [SpaceReq.create, SpaceReq.create] ∧
    ensure_spaces_converge 13 (ensure_spaces_target 2) =
      [SpaceReq.destroy 12, SpaceReq.destroy 12] ∧
    ensure_spaces_target 3 = 12 ∧
    11 < ensure_spaces_target 3 ∧
    ensure_spaces_converge 11 (ensure_spaces_target 3) = [] ∧
    (ensure_spaces_converge 11 (ensure_spaces_target 3)).length ≠
      ensure_spaces_target 3 - 11 := by decide

/-- The move-request list issued by `even_spaces` for two displays. -/
def evenMovesD2 : List (Nat × Nat) :=
  [(2, 1), (3, 1), (4, 1), (5, 1), (6, 1), (7, 2), (8, 2), (9, 2), (10, 2), (11, 2)]

/-- C9: for two displays `even_spaces` issues moves exactly for OS indices
2..6 to display 1 and 7..11 to display 2; for three displays additionally OS
index 12 to display 3; the space at OS index 1 is never moved. -/
theorem C9_even_spaces_requests :
    even_spaces 2 = .ok evenMovesD2 ∧
    even_spaces 3 = .ok (evenMovesD2 ++ [(12, 3)]) ∧
    (∀ p ∈ evenMovesD2 ++ [(12, 3)], p.1 ≠ 1) := by decide

/-- C7 counterexample: the integer 11 lies outside `[1..NUM_SPACES]`, yet
the CLI parser accepts `focus-space 11`, so the command does not fail during
argument parsing as claimed. -/
theorem C7_parse_counterexample :
    NUM_SPACES < 11 ∧
    parse_cli ["focus-space", "11"] = .ok (Cli.FocusSpace 11) := by decide

/-- C7 amended: only arguments that fail to parse as a `u32` (negative,
non-numeric, or ≥ 2^32) are rejected at parse time; the out-of-range values
0 and 11 parse successfully, and the core's literal selector applies no
`[1..NUM_SPACES]` bound either, so no range check happens before daemon
I/O. -/
theorem C7_parse_amended :
    parse_cli ["focus-space", "-1"] = .error "Invalid value for space: -1" ∧
    parse_cli ["focus-space", "abc"] = .error "Invalid value for space: abc" ∧
    parse_cli ["focus-space", "4294967296"] =
      .error "Invalid value for space: 4294967296" ∧
    parse_cli ["focus-space", "0"] = .ok (Cli.FocusSpace 0) ∧
    parse_cli ["focus-space", "11"] = .ok (Cli.FocusSpace 11) ∧
    select_label_index canonicalD2 0 2 (SpaceArg.Space 0) = .ok 0 ∧
    select_label_index canonicalD2 0 2 (SpaceArg.Space 11) = .ok 11 := by decide

/-- C4 counterexample: on the canonical two-display snapshot focused on
label 2, `focus-space prev` resolves to label index 10 = NUM_SPACES and
focus lands on `s10`, not on `NUM_SPACES − 1 = 9` as the claim states. -/
theorem C4_prev_counterexample :
    canonicalD2.num_displays = 2 ∧
    canonicalD2.focused_space.map Space.label = some "s2" ∧
    select_label_index canonicalD2 5 2 SpaceArg.Prev = .ok NUM_SPACES ∧
    (focus_space { daemon := canonicalD2, ctl := 5 } SpaceArg.Prev).map
      (fun env2 => env2.daemon.focused_space.map Space.label) = .ok (some "s10") ∧
    "s10" ≠ "s" ++ Nat.repr (NUM_SPACES - 1) := by decide

/-- C6 counterexample: with two displays, an expected error text and no pair
partner for the focused label (`s2` absent), `operate_window`'s East
fallback re-raises the daemon error instead of wrapping to the focused
space's first window. -/
theorem C6_no_partner_counterexample :
    twoDisplayNoPartner.num_displays = 2 ∧
    twoDisplayNoPartner.focused_space.map Space.label = some "s1" ∧
    twoDisplayNoPartner.find_space_by_label_index 2 = none ∧
    operate_window_on_error twoDisplayNoPartner WindowOp.Focus WindowArg.East
        "could not locate the selected window." =
      .error (.daemon "could not locate the selected window.") := by decide

/-- C8 counterexample: a snapshot with four displays has at least two
displays, yet `focus_space` with literal selector 0 fails with
`UnsupportedDisplayCount` before ever reaching the partner-index
subtraction, so the claim's "every snapshot with at least two displays" is
too broad. -/
theorem C8_four_display_counterexample :
    2 ≤ fourDisplayStates.num_displays ∧
    focus_space { daemon := fourDisplayStates, ctl := 0 } (SpaceArg.Space 0) =
      .error (.unsupportedDisplays 4) ∧
    focus_space { daemon := fourDisplayStates, ctl := 0 } (SpaceArg.Space 0) ≠
      .error .underflow := by decide

/-- One successful pass of the focus-execution step: with one, two or three
displays, a target label index `L ≥ 1` whose space exists, `do_focus`
succeeds and the final daemon state is a refocus of either the input
snapshot or of the input snapshot with the pair partner focused first. -/
theorem do_focus_run (states : YabaiStates) (F L : Nat)
    (hD : states.num_displays = 1 ∨ states.num_displays = 2 ∨
          states.num_displays = 3)
    (hL1 : 1 ≤ L)
    (hfindL : (states.find_space_by_label_index L).isSome = true) :
    ∃ st1, do_focus states F L = .ok (refocusLabel st1 ("s" ++ Nat.repr L)) ∧
      (st1 = states ∨ ∃ lbl, st1 = refocusLabel states lbl) := by
  have hnb : (if L % 2 = 0 then checkedSub L 1 else .ok (L + 1)) =
      Except.ok (if L % 2 = 0 then L - 1 else L + 1) := by
    by_cases hp : L % 2 = 0 <;> simp [hp, checkedSub, hL1]
  have hcore : states.num_displays = 2 ∨ states.num_displays = 3 →
      ∃ st1, do_focus states F L = .ok (refocusLabel st1 ("s" ++ Nat.repr L)) ∧
        (st1 = states ∨ ∃ lbl, st1 = refocusLabel states lbl) := by
    intro h23
    have hne : states.num_displays ≠ 1 := by rcases h23 with h | h <;> omega
    unfold do_focus
    rw [if_neg hne, if_pos h23, hnb]
    dsimp only
    cases hfn : states.find_space_by_label_index (if L % 2 = 0 then L - 1 else L + 1) with
    | none =>
      dsimp only
      exact ⟨states, focus_space_by_label_ok hfindL, Or.inl rfl⟩
    | some nsp =>
      dsimp only
      by_cases hc : F ≠ (if L % 2 = 0 then L - 1 else L + 1) ∧ nsp.is_visible = false
      · rw [if_pos hc]
        have hfnb : (states.find_space_by_label_index
            (if L % 2 = 0 then L - 1 else L + 1)).isSome = true := by
          rw [hfn]; rfl
        rw [focus_space_by_label_ok hfnb]
        dsimp only
        refine ⟨refocusLabel states ("s" ++ Nat.repr (if L % 2 = 0 then L - 1 else L + 1)),
          ?_, Or.inr ⟨_, rfl⟩⟩
        rw [focus_space_by_label_ok]
        rw [refocus_find_label_index_isSome]
        exact hfindL
      · rw [if_neg hc]
        dsimp only
        exact ⟨states, focus_space_by_label_ok hfindL, Or.inl rfl⟩
  rcases hD with h1 | h23 | h23
  · refine ⟨states, ?_, Or.inl rfl⟩
    unfold do_focus
    rw [if_pos h1]
    exact focus_space_by_label_ok hfindL
  · exact hcore (Or.inl h23)
  · exact hcore (Or.inr h23)

/-- One successful `focus_space` run: if the snapshot needs no restore, has
a focused space with label index `F`, the selector resolves to a label index
`L ≥ 1`, and a space labelled `s<L>` exists, then the run succeeds, the
persisted cursor becomes `F`, and the resulting snapshot keeps the display
list, space count, cleanliness and label-lookup success of the input while
its focused space carries the label `s<L>`. -/
theorem focus_space_run (env : ModelEnv) (spF : Space) (F L : Nat) (sel : SpaceArg)
    (hD : env.daemon.num_displays = 1 ∨ env.daemon.num_displays = 2 ∨
          env.daemon.num_displays = 3)
    (hclean : env.daemon.find_unlabeled_space = none)
    (hfoc : env.daemon.focused_space = some spF)
    (hFidx : spF.label_index = some F)
    (hsel : select_label_index env.daemon env.ctl F sel = .ok L)
    (hL1 : 1 ≤ L)
    (hfindL : (env.daemon.find_space_by_label_index L).isSome = true) :
    ∃ st2, focus_space env sel = .ok { daemon := st2, ctl := F } ∧
      st2.displays = env.daemon.displays ∧
      st2.num_spaces = env.daemon.num_spaces ∧
      st2.find_unlabeled_space = none ∧
      (∀ m, (st2.find_space_by_label_index m).isSome =
            (env.daemon.find_space_by_label_index m).isSome) ∧
      ∃ spL, st2.focused_space = some spL ∧ spL.label = "s" ++ Nat.repr L := by
  obtain ⟨st1, hdo, hst1⟩ := do_focus_run env.daemon F L hD hL1 hfindL
  have hst1_displays : st1.displays = env.daemon.displays := by
    rcases hst1 with rfl | ⟨lbl, rfl⟩
    · rfl
    · exact refocus_displays _ _
  have hst1_spaces : st1.num_spaces = env.daemon.num_spaces := by
    rcases hst1 with rfl | ⟨lbl, rfl⟩
    · rfl
    · exact refocus_num_spaces _ _
  have hst1_unlabeled : st1.find_unlabeled_space = none := by
    rcases hst1 with rfl | ⟨lbl, rfl⟩
    · exact hclean
    · rw [refocus_find_unlabeled, hclean]; rfl
  have hst1_find : ∀ m, (st1.find_space_by_label_index m).isSome =
      (env.daemon.find_space_by_label_index m).isSome := by
    intro m
    rcases hst1 with rfl | ⟨lbl, rfl⟩
    · rfl
    · exact refocus_find_label_index_isSome _ _ _
  refine ⟨refocusLabel st1 ("s" ++ Nat.repr L), ?_, ?_, ?_, ?_, ?_, ?_⟩
  · unfold focus_space
    dsimp only
    rw [hclean]
    dsimp only [Option.isSome_none]
    rw [if_neg (by simp)]
    rw [hfoc]
    dsimp only
    rw [hFidx]
    dsimp only
    rw [hsel]
    dsimp only
    rw [hdo]
  · rw [refocus_displays]; exact hst1_displays
  · rw [refocus_num_spaces]; exact hst1_spaces
  · rw [refocus_find_unlabeled, hst1_unlabeled]; rfl
  · intro m
    rw [refocus_find_label_index_isSome]; exact hst1_find m
  · have hfind1 : (st1.find_space_by_label ("s" ++ Nat.repr L)).isSome = true := by
      have h2 := hst1_find L
      unfold YabaiStates.find_space_by_label_index at h2
      rw [h2]
      exact hfindL
    cases hf : st1.find_space_by_label ("s" ++ Nat.repr L) with
    | none => rw [hf] at hfind1; simp at hfind1
    | some sp =>
      refine ⟨{ sp with has_focus := sp.label == ("s" ++ Nat.repr L) }, ?_, ?_⟩
      · rw [refocus_focused, hf]
        rfl
      · show sp.label = "s" ++ Nat.repr L
        exact find_space_by_label_label hf

/-- C5: from a snapshot focused on label index `A` (a space labelled `s<A>`),
running `focus_space` with a valid literal selector `B` distinct from `A`
and then with the `Recent` selector succeeds and returns focus to a space
labelled `s<A>`: the first run persists the previously focused index `A` as
the cursor, which the second run's `Recent` selector resolves; the second
run in turn persists `B`. -/
theorem C5_recent_toggle (env : ModelEnv) (A B : Nat) (spA spB : Space)
    (hD : env.daemon.num_displays = 1 ∨ env.daemon.num_displays = 2 ∨
          env.daemon.num_displays = 3)
    (hclean : env.daemon.find_unlabeled_space = none)
    (hfoc : env.daemon.focused_space = some spA)
    (hAlab : spA.label = "s" ++ Nat.repr A)
    (hAidx : spA.label_index = some A)
    (hA1 : 1 ≤ A) (hAcount : A ≤ env.daemon.num_spaces)
    (hB1 : 1 ≤ B) (hBN : B ≤ NUM_SPACES) (hAB : A ≠ B)
    (hfindB : env.daemon.find_space_by_label_index B = some spB)
    (hBidx : spB.label_index = some B) :
    ∃ env1 env2,
      focus_space env (SpaceArg.Space B) = .ok env1 ∧ env1.ctl = A ∧
      focus_space env1 SpaceArg.Recent = .ok env2 ∧ env2.ctl = B ∧
      ∃ sp, env2.daemon.focused_space = some sp ∧
        sp.label = "s" ++ Nat.repr A := by
  have hselB : select_label_index env.daemon env.ctl A (SpaceArg.Space B) = .ok B := rfl
  have hfindBs : (env.daemon.find_space_by_label_index B).isSome = true := by
    rw [hfindB]; rfl
  obtain ⟨st2, hrun1, hdisp, hns, hcl2, hfind2, spB2, hfoc2, hlab2⟩ :=
    focus_space_run env spA A B (SpaceArg.Space B) hD hclean hfoc hAidx hselB hB1 hfindBs
  have hnd2 : st2.num_displays = env.daemon.num_displays := by
    unfold YabaiStates.num_displays
    rw [hdisp]
  have hD1 : st2.num_displays = 1 ∨ st2.num_displays = 2 ∨ st2.num_displays = 3 := by
    rw [hnd2]; exact hD
  have hBlab : spB.label = "s" ++ Nat.repr B := find_space_by_label_index_label hfindB
  have hB2idx : spB2.label_index = some B := by
    rw [label_index_congr (hlab2.trans hBlab.symm)]
    exact hBidx
  have hselR : select_label_index st2 A B SpaceArg.Recent = .ok A := by
    unfold select_label_index
    dsimp only
    rw [if_neg]
    rw [hns]
    omega
  have hfindA : (st2.find_space_by_label_index A).isSome = true := by
    rw [hfind2 A]
    unfold YabaiStates.focused_space at hfoc
    have hmem : spA ∈ env.daemon.spaces := List.mem_of_find?_eq_some hfoc
    exact find_label_isSome_of_mem hmem hAlab
  obtain ⟨st3, hrun2, _hd3, _hn3, _hc3, _hf3, spA3, hfoc3, hlab3⟩ :=
    focus_space_run { daemon := st2, ctl := A } spB2 B A SpaceArg.Recent hD1 hcl2
      hfoc2 hB2idx hselR hA1 hfindA
  exact ⟨{ daemon := st2, ctl := A }, { daemon := st3, ctl := B }, hrun1, rfl,
    hrun2, rfl, spA3, hfoc3, hlab3⟩

/-- Witness for C5 on a concrete one-display snapshot: focus `s2` from `s1`
and then `focus-space recent` returns focus to `s1`. -/
theorem C5_recent_toggle_witness :
    ∃ env1 env2,
      focus_space { daemon := oneDisplayPair, ctl := 7 } (SpaceArg.Space 2) = .ok env1 ∧
      env1.ctl = 1 ∧
      focus_space env1 SpaceArg.Recent = .ok env2 ∧ env2.ctl = 2 ∧
      ∃ sp, env2.daemon.focused_space = some sp ∧ sp.label = "s" ++ Nat.repr 1 :=
  C5_recent_toggle { daemon := oneDisplayPair, ctl := 7 } 1 2
    (sampleSpace 1 "s1" true) (sampleSpace 2 "s2" false)
    (Or.inl (by decide)) (by decide) (by decide) (by decide) (by decide)
    (by decide) (by decide) (by decide) (by decide) (by decide) (by decide) (by decide)

/-- C8 amended: for every snapshot with exactly two or three displays, no
unlabeled native-fullscreen space and a focused space with a parsable label,
`focus_space` with the literal selector 0 reaches the partner-index
computation `label_index - 1` with `label_index = 0`: the unguarded `u32`
subtraction underflows (a panic in a debug build) — no precondition
requiring the target label index to be at least 1 is checked. -/
theorem C8_literal_zero_underflow (env : ModelEnv) (spF : Space) (F : Nat)
    (hD : env.daemon.num_displays = 2 ∨ env.daemon.num_displays = 3)
    (hclean : env.daemon.find_unlabeled_space = none)
    (hfoc : env.daemon.focused_space = some spF)
    (hidx : spF.label_index = some F) :
    focus_space env (SpaceArg.Space 0) = .error .underflow := by
  have hne : env.daemon.num_displays ≠ 1 := by rcases hD with h | h <;> omega
  have hdo : do_focus env.daemon F 0 = .error Err.underflow := by
    unfold do_focus
    rw [if_neg hne, if_pos hD]
    rfl
  have hsel : select_label_index env.daemon env.ctl F (SpaceArg.Space 0) = .ok 0 := rfl
  unfold focus_space
  dsimp only
  rw [hclean]
  dsimp only [Option.isSome_none]
  rw [if_neg (by simp)]
  rw [hfoc]
  dsimp only
  rw [hidx]
  dsimp only
  rw [hsel]
  dsimp only
  rw [hdo]

/-- Witness for C8 on a concrete two-display snapshot. -/
theorem C8_literal_zero_underflow_witness :
    focus_space { daemon := twoDisplayPair, ctl := 0 } (SpaceArg.Space 0) =
      .error .underflow :=
  C8_literal_zero_underflow { daemon := twoDisplayPair, ctl := 0 }
    (sampleSpace 1 "s1" true) 1 (Or.inl (by decide)) (by decide) (by decide) (by decide)

/-- C10: for every snapshot whose focused space carries a parsable label
index `L ≥ 1`, `neighbor_space` returns for East and for West the identical
lookup of the pair partner (`s<L-1>` if `L` is even, `s<L+1>` if odd), and
returns no neighbor for North and South. -/
theorem C10_neighbor_direction_independent (states : YabaiStates) (spF : Space)
    (L : Nat)
    (hfoc : states.focused_space = some spF)
    (hidx : spF.label_index = some L)
    (hL1 : 1 ≤ L) :
    neighbor_space states WindowArg.East = neighbor_space states WindowArg.West ∧
    neighbor_space states WindowArg.East =
      .ok (states.find_space_by_label_index (if L % 2 = 0 then L - 1 else L + 1)) ∧
    neighbor_space states WindowArg.North = .ok none ∧
    neighbor_space states WindowArg.South = .ok none := by
  have hnb : (if L % 2 = 0 then checkedSub L 1 else Except.ok (L + 1)) =
      Except.ok (if L % 2 = 0 then L - 1 else L + 1) := by
    by_cases hp : L % 2 = 0 <;> simp [hp, checkedSub, hL1]
  have hE : neighbor_space states WindowArg.East =
      .ok (states.find_space_by_label_index (if L % 2 = 0 then L - 1 else L + 1)) := by
    unfold neighbor_space
    rw [hfoc]
    dsimp only
    rw [hidx]
    dsimp only
    rw [hnb]
  have hW : neighbor_space states WindowArg.West =
      .ok (states.find_space_by_label_index (if L % 2 = 0 then L - 1 else L + 1)) := by
    unfold neighbor_space
    rw [hfoc]
    dsimp only
    rw [hidx]
    dsimp only
    rw [hnb]
  have hNo : neighbor_space states WindowArg.North = .ok none := by
    unfold neighbor_space
    rw [hfoc]
    dsimp only
    rw [hidx]
  have hSo : neighbor_space states WindowArg.South = .ok none := by
    unfold neighbor_space
    rw [hfoc]
    dsimp only
    rw [hidx]
  exact ⟨hE.trans hW.symm, hE, hNo, hSo⟩

/-- Witness for C10 on a concrete snapshot focused on `s1`. -/
theorem C10_neighbor_witness :
    neighbor_space oneDisplayPair WindowArg.East =
      neighbor_space oneDisplayPair WindowArg.West ∧
    neighbor_space oneDisplayPair WindowArg.East =
      .ok (oneDisplayPair.find_space_by_label_index (if 1 % 2 = 0 then 1 - 1 else 1 + 1)) ∧
    neighbor_space oneDisplayPair WindowArg.North = .ok none ∧
    neighbor_space oneDisplayPair WindowArg.South = .ok none :=
  C10_neighbor_direction_independent oneDisplayPair (sampleSpace 1 "s1" true) 1
    (by decide) (by decide) (by decide)

/-- C4 amended: `focus-space prev` follows the rule
`L = space-count − 1 − max(0, D−2) − (step − F)` when `F ≤ step` (else
`L = F − step`); on the canonical 11-space snapshots this sends focused
label 1 with one display to label `NUM_SPACES`, and focused label 2 with two
displays likewise to label `NUM_SPACES` (the even half of the last pair),
not to `NUM_SPACES − 1`. -/
theorem C4_prev_rule (states : YabaiStates) (recent F : Nat) :
    (states.num_displays = 1 → states.num_spaces = 11 → F = 1 →
      select_label_index states recent F SpaceArg.Prev = .ok NUM_SPACES) ∧
    (states.num_displays = 2 → states.num_spaces = 11 → F = 2 →
      select_label_index states recent F SpaceArg.Prev = .ok NUM_SPACES) ∧
    (∀ step extra,
      step = (if states.num_displays ≥ 2 then 2 else 1) →
      extra = (if states.num_displays > 2 then states.num_displays - 2 else 0) →
      (F ≤ step → 1 + extra + (step - F) ≤ states.num_spaces →
        select_label_index states recent F SpaceArg.Prev =
          .ok (states.num_spaces - 1 - extra - (step - F))) ∧
      (step < F →
        select_label_index states recent F SpaceArg.Prev = .ok (F - step))) := by
  have hgen : ∀ step extra,
      step = (if states.num_displays ≥ 2 then 2 else 1) →
      extra = (if states.num_displays > 2 then states.num_displays - 2 else 0) →
      (F ≤ step → 1 + extra + (step - F) ≤ states.num_spaces →
        select_label_index states recent F SpaceArg.Prev =
          .ok (states.num_spaces - 1 - extra - (step - F))) ∧
      (step < F →
        select_label_index states recent F SpaceArg.Prev = .ok (F - step)) := by
    intro step extra hstep hextra
    constructor
    · intro hF hcount
      unfold select_label_index
      dsimp only
      rw [← hstep, ← hextra, if_pos hF]
      have h1 : 1 ≤ states.num_spaces := by omega
      have h2 : extra ≤ states.num_spaces - 1 := by omega
      have h3 : step - F ≤ states.num_spaces - 1 - extra := by omega
      simp [checkedSub, h1, h2, h3]
    · intro hlt
      unfold select_label_index
      dsimp only
      rw [← hstep, if_neg (by omega)]
  refine ⟨?_, ?_, hgen⟩
  · intro hD hcount hF
    subst hF
    have hres := (hgen 1 0 (by rw [hD]; decide) (by rw [hD]; decide)).1
      (by omega) (by omega)
    rw [hcount] at hres
    simpa [NUM_SPACES] using hres
  · intro hD hcount hF
    subst hF
    have hres := (hgen 2 0 (by rw [hD]; decide) (by rw [hD]; decide)).1
      (by omega) (by omega)
    rw [hcount] at hres
    simpa [NUM_SPACES] using hres

/-- Witness for C4 on the canonical two-display snapshot focused on `s2`:
`prev` resolves to label index `NUM_SPACES = 10`. -/
theorem C4_prev_rule_witness :
    select_label_index canonicalD2 0 2 SpaceArg.Prev = .ok NUM_SPACES :=
  (C4_prev_rule canonicalD2 0 2).2.1 (by decide) (by decide) (by decide)

/-- C6 amended: after a directional East/West failure with either of the two
expected error texts for that direction (`"could not locate a <dir>ward
managed window."` or `"could not locate the selected window."`), the
fallback wraps within the focused space (its first window for East, last for
West) only in the one-display case; with two or three displays and no pair
partner for the focused label, `operate_window` re-raises the daemon error
instead. -/
theorem C6_fallback_amended (states : YabaiStates) (op : WindowOp) (e : String)
    (spF : Space)
    (hfoc : states.focused_space = some spF) :
    (states.num_displays = 1 →
      strContains e "could not locate a eastward managed window." = true ∨
        strContains e "could not locate the selected window." = true →
      operate_window_on_error states op WindowArg.East e =
        .ok [["window", op.as_str, Nat.repr spF.first_window]]) ∧
    (states.num_displays = 1 →
      strContains e "could not locate a westward managed window." = true ∨
        strContains e "could not locate the selected window." = true →
      operate_window_on_error states op WindowArg.West e =
        .ok [["window", op.as_str, Nat.repr spF.last_window]]) ∧
    (∀ L, spF.label_index = some L → 1 ≤ L →
      states.find_space_by_label_index (if L % 2 = 0 then L - 1 else L + 1) = none →
      states.num_displays = 2 ∨ states.num_displays = 3 →
      strContains e "could not locate a eastward managed window." = true ∨
        strContains e "could not locate the selected window." = true →
      operate_window_on_error states op WindowArg.East e = .error (.daemon e)) ∧
    (∀ L, spF.label_index = some L → 1 ≤ L →
      states.find_space_by_label_index (if L % 2 = 0 then L - 1 else L + 1) = none →
      states.num_displays = 2 ∨ states.num_displays = 3 →
      strContains e "could not locate a westward managed window." = true ∨
        strContains e "could not locate the selected window." = true →
      operate_window_on_error states op WindowArg.West e = .error (.daemon e)) := by
  refine ⟨?_, ?_, ?_, ?_⟩
  · intro hD1 he
    unfold operate_window_on_error
    dsimp only
    rw [if_neg (by rcases he with h | h <;> simp [WindowArg.as_str, h]),
      if_pos hD1, hfoc]
  · intro hD1 he
    unfold operate_window_on_error
    dsimp only
    rw [if_neg (by rcases he with h | h <;> simp [WindowArg.as_str, h]),
      if_pos hD1, hfoc]
  · intro L hidx hL1 hnone h23 he
    have hne : states.num_displays ≠ 1 := by rcases h23 with h | h <;> omega
    have hnb : (if L % 2 = 0 then checkedSub L 1 else Except.ok (L + 1)) =
        Except.ok (if L % 2 = 0 then L - 1 else L + 1) := by
      by_cases hp : L % 2 = 0 <;> simp [hp, checkedSub, hL1]
    have hE : neighbor_space states WindowArg.East = .ok none := by
      unfold neighbor_space
      rw [hfoc]
      dsimp only
      rw [hidx]
      dsimp only
      rw [hnb]
      dsimp only
      rw [hnone]
    unfold operate_window_on_error
    dsimp only
    rw [if_neg (by rcases he with h | h <;> simp [WindowArg.as_str, h]),
      if_neg hne, if_pos h23, hE]
  · intro L hidx hL1 hnone h23 he
    have hne : states.num_displays ≠ 1 := by rcases h23 with h | h <;> omega
    have hnb : (if L % 2 = 0 then checkedSub L 1 else Except.ok (L + 1)) =
        Except.ok (if L % 2 = 0 then L - 1 else L + 1) := by
      by_cases hp : L % 2 = 0 <;> simp [hp, checkedSub, hL1]
    have hW : neighbor_space states WindowArg.West = .ok none := by
      unfold neighbor_space
      rw [hfoc]
      dsimp only
      rw [hidx]
      dsimp only
      rw [hnb]
      dsimp only
      rw [hnone]
    unfold operate_window_on_error
    dsimp only
    rw [if_neg (by rcases he with h | h <;> simp [WindowArg.as_str, h]),
      if_neg hne, if_pos h23, hW]

/-- Witness for C6: on a one-display snapshot whose focused space holds
windows 7 and 9, both expected error texts trigger the in-space fallback
(the direction-specific text for East, the selected-window text for West);
on a two-display snapshot with no partner, the direction-specific text is
re-raised. -/
theorem C6_fallback_witness :
    operate_window_on_error oneDisplayTwoWindows WindowOp.Focus WindowArg.East
        "could not locate a eastward managed window." =
      .ok [["window", "--focus", Nat.repr 7]] ∧
    operate_window_on_error oneDisplayTwoWindows WindowOp.Focus WindowArg.West
        "could not locate the selected window." =
      .ok [["window", "--focus", Nat.repr 9]] ∧
    operate_window_on_error twoDisplayNoPartner WindowOp.Focus WindowArg.East
        "could not locate a eastward managed window." =
      .error (.daemon "could not locate a eastward managed window.") :=
  ⟨(C6_fallback_amended oneDisplayTwoWindows WindowOp.Focus
      "could not locate a eastward managed window."
      { index := 1, label := "s1", display := 1, windows := [7, 9], first_window := 7,
        last_window := 9, has_focus := true, is_visible := true,
        is_native_fullscreen := false }
      (by decide)).1 (by decide) (Or.inl (by decide)),
   (C6_fallback_amended oneDisplayTwoWindows WindowOp.Focus
      "could not locate the selected window."
      { index := 1, label := "s1", display := 1, windows := [7, 9], first_window := 7,
        last_window := 9, has_focus := true, is_visible := true,
        is_native_fullscreen := false }
      (by decide)).2.1 (by decide) (Or.inr (by decide)),
   (C6_fallback_amended twoDisplayNoPartner WindowOp.Focus
      "could not locate a eastward managed window."
      (sampleSpace 1 "s1" true)
      (by decide)).2.2.1 1 (by decide) (by decide) (by decide)
      (Or.inl (by decide)) (Or.inl (by decide))⟩

end Yabaictl
